import Mathlib

/-!
Shallow embedding of the savant_rs_serializer GStreamer element
(src/adapters/gst/gst_plugins/python/savant_rs_serializer.py) and proofs of
the specification claims about it.

External collaborators (the GStreamer framework, the savant-rs binary codec
`save_message_to_bytes`, the `splitstream`/`json` parsing libraries and the
filesystem) are modelled at their interfaces: a sidecar file appears as the
already-parsed list of its JSON records, and the wire payload of an emitted
buffer is kept as the logical message rather than its serialized bytes.
-/

namespace Savant

/-- Minimal JSON value model: the serializer only inspects objects (key
lookup), strings (the schema discriminant) and truthiness of values. -/
inductive Json where
  | null : Json
  | bool (b : Bool) : Json
  | num (n : Int) : Json
  | str (s : String) : Json
  | arr (xs : List Json) : Json
  | obj (fields : List (String × Json)) : Json
deriving Repr

/-- Python dict key lookup `j[key]` / `key in j`, returning none when the
value is not an object or the key is missing. -/
def Json.lookup : Json → String → Option Json
  | .obj fields, key => List.lookup key fields
  | _, _ => none

/-- Python truthiness of a JSON value (`if objects:`). -/
def Json.truthy : Json → Bool
  | .null => false
  | .bool b => b
  | .num n => n != 0
  | .str s => s != ""
  | .arr xs => !xs.isEmpty
  | .obj fields => !fields.isEmpty

/-- Python comparison of a JSON value with a string literal (a non-string
JSON value compares unequal to every string). -/
def Json.isStrEq : Json → String → Bool
  | .str t, s => t == s
  | _, _ => false

/-- Frame parameters (codec name, geometry, framerate) derived from the
negotiated caps; compared for equality to detect parameter changes. -/
structure FrameParams where
  codec_name : String
  width : Nat
  height : Nat
  framerate : String
deriving DecidableEq, Repr

/-- Modelled from the spec: the external-reference frame-type scheme used by
the element (savant.api.enums.ExternalFrameType is not under src/); the only
scheme the element supports at runtime is the zeromq one. -/
inductive ExternalFrameType where
  | zeromq : ExternalFrameType
deriving DecidableEq, Repr

/-- String value of the frame-type scheme. -/
def ExternalFrameType.value : ExternalFrameType → String
  | .zeromq => "zeromq"

/-- Modelled from the spec: savant_rs VideoFrameTransformation (not under
src/); the element only ever attaches the initial-size record built at caps
negotiation. -/
inductive VideoFrameTransformation where
  | initial_size (width height : Nat) : VideoFrameTransformation
deriving DecidableEq, Repr

/-- Modelled from the spec: savant_rs VideoFrameContent (not under src/):
either embedded bytes or an external reference with a scheme tag. -/
inductive VideoFrameContent where
  | internal (data : List Nat) : VideoFrameContent
  | external (method : String) (location : Option String) : VideoFrameContent
deriving DecidableEq, Repr

/-- Modelled from the spec: a savant_rs Attribute value (not under src/);
the element only attaches single string values. -/
structure SAttribute where
  ns : String
  name : String
  values : List String
deriving DecidableEq, Repr

/-- Modelled from the spec: the fixed default attribute namespace
(savant.api.constants.DEFAULT_NAMESPACE is not under src/). -/
def DEFAULT_NAMESPACE : String := "default"

/-- Modelled from the spec: the default time base constant
(savant.api.constants.DEFAULT_TIME_BASE is not under src/). -/
def DEFAULT_TIME_BASE : Nat × Nat := (1, 1000000000)

/-- Modelled from the spec: the default framerate constant
(savant.api.constants.DEFAULT_FRAMERATE is not under src/). -/
def DEFAULT_FRAMERATE : String := "30/1"

/-- GStreamer GST_CLOCK_TIME_NONE sentinel (all-ones 64-bit value). -/
def CLOCK_TIME_NONE : Nat := 2 ^ 64 - 1

/-- Modelled from the spec: the savant_rs VideoFrame wire message (the
VideoFrame class itself is not under src/); fields are exactly those the
element populates in build_video_frame. -/
structure VideoFrame where
  source_id : String
  framerate : String
  width : Nat
  height : Nat
  codec : String
  content : VideoFrameContent
  keyframe : Bool
  pts : Nat
  dts : Option Nat
  duration : Option Nat
  time_base : Nat × Nat
  transformations : List VideoFrameTransformation
  objects : Option Json
  attributes : List SAttribute
deriving Repr

/-- Logical wire message handed to the black-box codec. -/
inductive WireMessage where
  | video_frame (frame : VideoFrame) : WireMessage
  | end_of_stream (source_id : String) : WireMessage
  | shutdown (auth : String) : WireMessage
deriving Repr

/-- One emitted output buffer: [topic, payload] segments, a flag for the
appended raw-memory third segment, and the timing copied onto the buffer
(frame envelopes only). -/
structure Envelope where
  topic : String
  payload : WireMessage
  raw_memory : Bool
  pts : Option Nat
  dts : Option Nat
  duration : Option Nat
deriving Repr

/-- Incoming GStreamer buffer at the interface the element reads: timing,
payload bytes and the delta-unit flag. -/
structure GstBuffer where
  pts : Nat
  dts : Nat
  duration : Nat
  data : List Nat
  delta_unit : Bool
deriving DecidableEq, Repr

/-- Mutable per-element state of SavantRsSerializer (the fields assigned in
its constructor); the filesystem is passed separately to the operations that
read it. -/
structure SerializerState where
  source_id : Option String
  eos_on_file_end : Bool
  eos_on_loop_end : Bool
  eos_on_frame_params_change : Bool
  enable_multistream : Bool
  source_id_pattern : Option String
  number_of_streams : Nat
  shutdown_auth : Option String
  frame_params : Option FrameParams
  initial_size_transformation : Option VideoFrameTransformation
  last_frame_params : Option FrameParams
  location : Option String
  last_location : Option String
  new_loop : Bool
  default_framerate : String
  frame_type : Option ExternalFrameType
  source_ids_and_topics : List (String × String)
  stream_in_progress : Bool
  read_metadata : Bool
  json_metadata : Option (List Json)
  frame_num : Nat

/-- Field values set by SavantRsSerializer.__init__. -/
def init_state : SerializerState where
  source_id := none
  eos_on_file_end := true
  eos_on_loop_end := false
  eos_on_frame_params_change := true
  enable_multistream := false
  source_id_pattern := some "source-%d"
  number_of_streams := 1
  shutdown_auth := none
  frame_params := none
  initial_size_transformation := none
  last_frame_params := none
  location := none
  last_location := none
  new_loop := false
  default_framerate := DEFAULT_FRAMERATE
  frame_type := some ExternalFrameType.zeromq
  source_ids_and_topics := []
  stream_in_progress := false
  read_metadata := false
  json_metadata := none
  frame_num := 0

/-- Python truthiness of an optional string (`if self.location:`): None and
the empty string are falsy. -/
def strTruthy : Option String → Bool
  | none => false
  | some s => s != ""

/-- Check that a parsed sidecar record is a video-frame record: it has no
schema field, or its schema field equals the string VideoFrame. -/
def is_videoframe_metadata (metadata : Json) : Bool :=
  if (metadata.lookup "schema").isSome
      && !((metadata.lookup "schema").getD Json.null).isStrEq "VideoFrame" then
    false
  else
    true

/-- The filesystem at the sidecar-reading interface: maps a path to the
parsed list of its concatenated JSON records (json.loads over splitfile,
both external libraries), or none when no file exists at the path. -/
def FileSystem : Type := String → Option (List Json)

/-- Stem of the final path component, as pathlib.Path.stem computes it for
ordinary file names: the name without its last dot-suffix. -/
def path_stem (p : String) : String :=
  let name := (p.splitOn "/").getLastD ""
  let parts := name.splitOn "."
  if parts.length ≤ 1 then name
  else String.intercalate "." parts.dropLast

/-- Directory part of a path, as pathlib.Path.parent renders it. -/
def path_parent (p : String) : String :=
  let parts := (p.splitOn "/").dropLast
  if parts.isEmpty then "." else String.intercalate "/" parts

/-- Sidecar path derivation used at every reload site:
location.parent / (location.stem + .json). -/
def sidecar_path (location : String) : String :=
  path_parent location ++ "/" ++ path_stem location ++ ".json"

/-- SavantRsSerializer.read_json_metadata_file: returns none when metadata
reading is disabled or the file is absent (the caller logs a warning);
otherwise keeps the video-frame records in file order and projects each to
its metadata field. A qualifying record without a metadata field raises a
KeyError, modelled as an error result. -/
def read_json_metadata_file (read_metadata : Bool) (file : Option (List Json)) :
    Except String (Option (List Json)) :=
  if read_metadata then
    match file with
    | some records =>
      match (records.filter is_videoframe_metadata).mapM
          (fun x => x.lookup "metadata") with
      | some projected => .ok (some projected)
      | none => .error "KeyError: metadata"
    | none => .ok none
  else
    .ok none

/-- Python percent-formatting of a format string with a single natural
number argument, restricted to a fragment of the conversions Python
accepts: a literal run, %d, %s, the precision-zero %.0s (which renders any
argument as the empty string) and the %% escape. Returns none exactly
where Python raises for the pattern (no conversion consumed the argument,
or a second conversion finds no further argument). -/
def pyFormatNat (fmt : String) (arg : Nat) : Option String :=
  go fmt.toList false
where
  go : List Char → Bool → Option String
    | [], consumed => if consumed then some "" else none
    | '%' :: '%' :: rest, consumed => (go rest consumed).map (fun t => "%" ++ t)
    | '%' :: 'd' :: rest, consumed =>
      if consumed then none
      else (go rest true).map (fun t => toString arg ++ t)
    | '%' :: 's' :: rest, consumed =>
      if consumed then none
      else (go rest true).map (fun t => toString arg ++ t)
    | '%' :: '.' :: '0' :: 's' :: rest, consumed =>
      if consumed then none
      else go rest true
    | '%' :: _ :: _, _ => none
    | ['%'], _ => none
    | c :: rest, consumed => (go rest consumed).map (fun t => c.toString ++ t)

/-- Source-id generation of do_start in multistream mode:
[pattern % i for i in range(number_of_streams)], none when formatting
raises. -/
def generate_source_ids (pattern : String) (n : Nat) : Option (List String) :=
  (List.range n).mapM (pyFormatNat pattern)

/-- SavantRsSerializer.do_start: computes the logical source ids (pattern
expansion in multistream mode, the single configured source-id otherwise),
rejects duplicate generated ids (len(ids) != len(set(ids))) and missing
configuration, and records the (source_id, topic) pairs; none models
returning False (the element does not start). -/
def do_start (s : SerializerState) : Option SerializerState := do
  let source_ids ←
    if s.enable_multistream then do
      let pattern ← s.source_id_pattern
      let ids ← generate_source_ids pattern s.number_of_streams
      if ids.length ≠ ids.dedup.length then none
      else some ids
    else do
      let sid ← s.source_id
      some [sid]
  some { s with
    source_ids_and_topics := source_ids.map (fun sid => (sid, sid ++ "/")) }

/-- Python truthiness of the json_metadata field (`if ... and
self.json_metadata:`): None and the empty list are falsy. -/
def jsonMetadataTruthy : Option (List Json) → Bool
  | none => false
  | some records => !records.isEmpty

/-- SavantRsSerializer.build_video_frame: normalizes a not-a-time pts to 0,
fetches the sidecar record at the current frame index when metadata reading
is on and records are loaded (a missing index raises IndexError, a record
without an objects field raises KeyError), assembles the VideoFrame,
attaches the initial-size transformation and, when the location is set, the
location attribute. Returns the frame and the state with the advanced frame
index. -/
def build_video_frame (s : SerializerState) (source_id : String) (pts : Nat)
    (dts : Option Nat) (duration : Option Nat) (content : VideoFrameContent)
    (keyframe : Bool) : Except String (VideoFrame × SerializerState) := do
  let pts := if pts == CLOCK_TIME_NONE then 0 else pts
  let (objects, s) ←
    if s.read_metadata && jsonMetadataTruthy s.json_metadata then
      match (s.json_metadata.getD []).get? s.frame_num with
      | none => Except.error "IndexError: list index out of range"
      | some frame_metadata =>
        match frame_metadata.lookup "objects" with
        | some objs =>
          Except.ok (some objs, { s with frame_num := s.frame_num + 1 })
        | none => Except.error "KeyError: objects"
    else
      Except.ok ((none : Option Json), s)
  let fp ← match s.frame_params with
    | some fp => Except.ok fp
    | none => Except.error "AttributeError: frame_params is None"
  let t ← match s.initial_size_transformation with
    | some t => Except.ok t
    | none => Except.error "TypeError: transformation is None"
  let video_frame : VideoFrame :=
    { source_id := source_id
      framerate := fp.framerate
      width := fp.width
      height := fp.height
      codec := fp.codec_name
      content := content
      keyframe := keyframe
      pts := pts
      dts := dts
      duration := duration
      time_base := DEFAULT_TIME_BASE
      -- add_transformation attaches the single initial-size record
      transformations := [t]
      -- add_objects_to_video_frame runs only on a truthy object list
      objects :=
        match objects with
        | some objs => if objs.truthy then some objs else none
        | none => none
      -- set_attribute runs only on a truthy location
      attributes :=
        if strTruthy s.location then
          [{ ns := DEFAULT_NAMESPACE, name := "location",
             values := [s.location.getD ""] }]
        else [] }
  Except.ok (video_frame, s)

/-- Wire envelope of one end-of-stream message for a (source_id, topic)
pair: [topic, payload] with no raw memory and no timing. -/
def eosEnvelope (st : String × String) : Envelope where
  topic := st.2
  payload := WireMessage.end_of_stream st.1
  raw_memory := false
  pts := none
  dts := none
  duration := none

/-- Wire envelope of the shutdown message: [topic, payload] with no raw
memory and no timing. -/
def shutdownEnvelope (topic : String) (auth : String) : Envelope where
  topic := topic
  payload := WireMessage.shutdown auth
  raw_memory := false
  pts := none
  dts := none
  duration := none

/-- SavantRsSerializer.send_eos_message: pushes one end-of-stream envelope
per configured (source_id, topic) pair, in order, then clears
stream_in_progress. -/
def send_eos_message (s : SerializerState) : List Envelope × SerializerState :=
  (s.source_ids_and_topics.map eosEnvelope,
   { s with stream_in_progress := false })

/-- SavantRsSerializer.send_shutdown_message: when shutdown-auth is set,
pushes a single shutdown envelope on the first configured topic; otherwise
pushes nothing. Indexing the first topic raises when no sources are
configured. -/
def send_shutdown_message (s : SerializerState) : Except String (List Envelope) :=
  match s.shutdown_auth with
  | some auth =>
    match s.source_ids_and_topics.head? with
    | some st0 => Except.ok [shutdownEnvelope st0.2 auth]
    | none => Except.error "IndexError: no sources configured"
  | none => Except.ok []

/-- End-of-stream boundary condition of do_prepare_output_buffer, with the
Python and/or precedence made explicit. -/
def boundary_trigger (s : SerializerState) : Bool :=
  (s.eos_on_file_end && decide (s.location ≠ s.last_location))
    || (s.eos_on_frame_params_change
          && decide (s.frame_params ≠ s.last_frame_params))
    || (s.eos_on_loop_end && s.new_loop)

/-- Boundary phase of do_prepare_output_buffer: while a stream is in
progress and a configured trigger holds, reload the sidecar for the current
location, reset the frame index to 0 and emit the end-of-stream messages;
dereferencing an unset location raises. -/
def handle_stream_boundary (fs : FileSystem) (s : SerializerState) :
    Except String (List Envelope × SerializerState) :=
  if s.stream_in_progress && boundary_trigger s then do
    let loc ← match s.location with
      | some loc => Except.ok loc
      | none => Except.error "AttributeError: location is None"
    let jm ← read_json_metadata_file s.read_metadata (fs (sidecar_path loc))
    let s := { s with json_metadata := jm, frame_num := 0 }
    let (envs, s) := send_eos_message s
    Except.ok (envs, s)
  else
    Except.ok ([], s)

/-- Envelope of one fanned-out frame message: [topic, payload] with the raw
input memory appended for by-reference content, carrying the input buffer
timing unchanged. -/
def frame_envelope (topic : String) (frame : VideoFrame) (raw : Bool)
    (in_buf : GstBuffer) : Envelope where
  topic := topic
  payload := WireMessage.video_frame frame
  raw_memory := raw
  pts := some in_buf.pts
  dts := some in_buf.dts
  duration := some in_buf.duration

/-- Content representation chosen from the configured frame type: embedded
bytes read out of the mapped input buffer when the frame type is unset
(embedded mode), an external reference otherwise. With the single
supported external scheme the unsupported-frame-type error branch of the
source is unreachable. -/
def content_of (frame_type : Option ExternalFrameType) (data : List Nat) :
    VideoFrameContent :=
  match frame_type with
  | none => VideoFrameContent.internal data
  | some ft => VideoFrameContent.external ft.value none

/-- Fan-out of one built frame over the configured sources: one envelope
per (source_id, topic) pair, identical frames except for source_id, with
the raw input memory appended when content is by-reference. -/
def frame_fanout (s : SerializerState) (frame : VideoFrame)
    (in_buf : GstBuffer) : List Envelope :=
  s.source_ids_and_topics.map (fun st =>
    frame_envelope st.2 { frame with source_id := st.1 }
      s.frame_type.isSome in_buf)

/-- SavantRsSerializer.do_prepare_output_buffer: runs the boundary phase,
records the current location and frame parameters as the new baseline,
chooses the content representation from the frame type (with the single
supported external scheme the unsupported-type error branch is
unreachable), builds one frame and fans it out over the configured sources,
varying only source_id; all but the last envelope are pushed, the last is
returned as the primary output, and stream_in_progress is set. -/
def do_prepare_output_buffer (fs : FileSystem) (s : SerializerState)
    (in_buf : GstBuffer) :
    Except String (List Envelope × Envelope × SerializerState) := do
  let (boundary_envs, s) ← handle_stream_boundary fs s
  let s := { s with last_location := s.location,
                    last_frame_params := s.frame_params, new_loop := false }
  let content := content_of s.frame_type in_buf.data
  let first ← match s.source_ids_and_topics.head? with
    | some st => Except.ok st.1
    | none => Except.error "IndexError: no sources configured"
  let (frame, s) ← build_video_frame s first in_buf.pts
      (if in_buf.dts != CLOCK_TIME_NONE then some in_buf.dts else none)
      (if in_buf.duration != CLOCK_TIME_NONE then some in_buf.duration
       else none)
      content (!in_buf.delta_unit)
  let fanout := frame_fanout s frame in_buf
  let out ← match fanout.getLast? with
    | some e => Except.ok e
    | none => Except.error "NameError: out_buf is not defined"
  Except.ok (boundary_envs ++ fanout.dropLast, out,
             { s with stream_in_progress := true })

/-- Sink events the element reacts to: the final upstream end-of-stream,
and a tag event optionally carrying a new location. -/
inductive SinkEvent where
  | eos : SinkEvent
  | tag (location : Option String) : SinkEvent

/-- SavantRsSerializer.do_sink_event: on the upstream EOS event, send the
end-of-stream messages and then the optional shutdown message; on a tag
event carrying a location, set the location, mark a new loop, reload the
sidecar and reset the frame index. -/
def do_sink_event (fs : FileSystem) (s : SerializerState) (ev : SinkEvent) :
    Except String (List Envelope × SerializerState) :=
  match ev with
  | .eos => do
    let (eos_envs, s) := send_eos_message s
    let sd ← send_shutdown_message s
    Except.ok (eos_envs ++ sd, s)
  | .tag location =>
    match location with
    | some loc => do
      let s := { s with location := some loc, new_loop := true }
      let jm ← read_json_metadata_file s.read_metadata (fs (sidecar_path loc))
      Except.ok ([], { s with json_metadata := jm, frame_num := 0 })
    | none => Except.ok ([], s)

/-- One serialized call into the running element: a buffer arriving at
do_prepare_output_buffer or a sink event. -/
inductive SOp where
  | buffer (in_buf : GstBuffer) : SOp
  | event (ev : SinkEvent) : SOp

/-- One processing step and the envelopes it emits; the primary output
buffer of do_prepare_output_buffer is pushed by the surrounding base
transform right after the call, so it is appended to the emitted list. -/
def step (fs : FileSystem) (s : SerializerState) :
    SOp → Except String (List Envelope × SerializerState)
  | .buffer b =>
    (do_prepare_output_buffer fs s b).map (fun r => (r.1 ++ [r.2.1], r.2.2))
  | .event ev => do_sink_event fs s ev

/-- Whether an envelope carries a frame message. -/
def Envelope.isFrame (e : Envelope) : Bool :=
  match e.payload with
  | .video_frame _ => true
  | _ => false

/-- Whether an envelope carries an end-of-stream message. -/
def Envelope.isEos (e : Envelope) : Bool :=
  match e.payload with
  | .end_of_stream _ => true
  | _ => false

/-- Whether an envelope carries a shutdown message. -/
def Envelope.isShutdown (e : Envelope) : Bool :=
  match e.payload with
  | .shutdown _ => true
  | _ => false

/-- Folding step counting frame envelopes and resetting the count at every
end-of-stream envelope. -/
def frameCountStep (acc : Nat) (e : Envelope) : Nat :=
  match e.payload with
  | .video_frame _ => acc + 1
  | .end_of_stream _ => 0
  | .shutdown _ => acc

/-- Number of frame envelopes emitted since the last end-of-stream envelope
in an emission history. -/
def framesSince (history : List Envelope) : Nat :=
  history.foldl frameCountStep 0

/-- The claimed state invariant: stream_in_progress holds exactly when at
least one frame message has been emitted since the last end-of-stream
emission. -/
def stream_invariant (s : SerializerState) (history : List Envelope) : Prop :=
  s.stream_in_progress = true ↔ 0 < framesSince history

/-! ### Helper lemmas -/

@[simp]
theorem isShutdown_eosEnvelope (st : String × String) :
    (eosEnvelope st).isShutdown = false := rfl

@[simp]
theorem isEos_eosEnvelope (st : String × String) :
    (eosEnvelope st).isEos = true := rfl

@[simp]
theorem isFrame_eosEnvelope (st : String × String) :
    (eosEnvelope st).isFrame = false := rfl

@[simp]
theorem isShutdown_shutdownEnvelope (t a : String) :
    (shutdownEnvelope t a).isShutdown = true := rfl

@[simp]
theorem isEos_shutdownEnvelope (t a : String) :
    (shutdownEnvelope t a).isEos = false := rfl

@[simp]
theorem isFrame_shutdownEnvelope (t a : String) :
    (shutdownEnvelope t a).isFrame = false := rfl

@[simp]
theorem isFrame_frame_envelope (t : String) (f : VideoFrame) (r : Bool)
    (b : GstBuffer) : (frame_envelope t f r b).isFrame = true := rfl

@[simp]
theorem isEos_frame_envelope (t : String) (f : VideoFrame) (r : Bool)
    (b : GstBuffer) : (frame_envelope t f r b).isEos = false := rfl

/-- Elimination of a successful build_video_frame call: the built frame
carries the normalized pts and the dts/duration passed in, and the state
is unchanged except that the frame index may have advanced by one. -/
theorem build_video_frame_ok_elim
    {s : SerializerState} {sid : String} {pts : Nat} {dts duration : Option Nat}
    {content : VideoFrameContent} {keyframe : Bool} {f : VideoFrame}
    {sb : SerializerState}
    (h : build_video_frame s sid pts dts duration content keyframe =
      Except.ok (f, sb)) :
    f.pts = (if pts == CLOCK_TIME_NONE then 0 else pts) ∧
    f.dts = dts ∧ f.duration = duration ∧
    (sb = s ∨ sb = { s with frame_num := s.frame_num + 1 }) := by
  unfold build_video_frame at h
  simp only [bind, Except.bind] at h
  repeat' split at h
  all_goals
    first
    | exact Except.noConfusion h
    | · obtain ⟨hf, hsb⟩ := Prod.mk.inj (Except.ok.inj h)
        subst hf
        subst hsb
        refine ⟨by simp_all, rfl, rfl, ?_⟩
        first
        | exact Or.inl rfl
        | exact Or.inr rfl

/-- Elimination of a successful do_prepare_output_buffer call: the
boundary phase and the frame build succeeded, the pushed envelopes are the
boundary envelopes followed by all but the last fan-out envelope, and the
primary output is the last fan-out envelope. -/
theorem prepare_ok_elim
    {fs : FileSystem} {s : SerializerState} {in_buf : GstBuffer}
    {pushed : List Envelope} {out : Envelope} {s' : SerializerState}
    (h : do_prepare_output_buffer fs s in_buf = Except.ok (pushed, out, s')) :
    ∃ benvs smid first frame sb,
      handle_stream_boundary fs s = Except.ok (benvs, smid) ∧
      smid.source_ids_and_topics.head? = some first ∧
      build_video_frame
        { smid with last_location := smid.location,
                    last_frame_params := smid.frame_params,
                    new_loop := false }
        first.1 in_buf.pts
        (if in_buf.dts != CLOCK_TIME_NONE then some in_buf.dts else none)
        (if in_buf.duration != CLOCK_TIME_NONE then some in_buf.duration
         else none)
        (content_of smid.frame_type in_buf.data)
        (!in_buf.delta_unit) = Except.ok (frame, sb) ∧
      pushed = benvs ++ (frame_fanout sb frame in_buf).dropLast ∧
      (frame_fanout sb frame in_buf).getLast? = some out ∧
      s' = { sb with stream_in_progress := true } := by
  unfold do_prepare_output_buffer at h
  simp only [bind, Except.bind] at h
  repeat' split at h
  all_goals try exact Except.noConfusion h
  rename_i xB rB heqB xH st0 heqH xF fr heqF xL eL heqL
  obtain ⟨hp, hrest⟩ := Prod.mk.inj (Except.ok.inj h)
  obtain ⟨ho, hs'⟩ := Prod.mk.inj hrest
  subst hp
  subst ho
  subst hs'
  exact ⟨rB.1, rB.2, st0, fr.1, fr.2, heqB, heqH, heqF, rfl, heqL, rfl⟩

/-- The boundary phase does nothing while no stream is in progress. -/
theorem handle_stream_boundary_not_in_progress
    (fs : FileSystem) (s : SerializerState)
    (h : s.stream_in_progress = false) :
    handle_stream_boundary fs s = Except.ok ([], s) := by
  unfold handle_stream_boundary
  simp [h]

/-- The boundary phase does nothing when no configured trigger holds. -/
theorem handle_stream_boundary_no_trigger
    (fs : FileSystem) (s : SerializerState)
    (htrig : boundary_trigger s = false) :
    handle_stream_boundary fs s = Except.ok ([], s) := by
  unfold handle_stream_boundary
  simp [htrig]

/-- Exact result of the boundary phase when a trigger fires while a stream
is in progress: the sidecar is reloaded for the current location, the frame
index is reset to 0, one end-of-stream envelope per source is emitted and
stream_in_progress is cleared. -/
theorem handle_stream_boundary_trigger_eq
    (fs : FileSystem) (s : SerializerState) (loc : String)
    (jm : Option (List Json))
    (hsip : s.stream_in_progress = true)
    (hloc : s.location = some loc)
    (hread : read_json_metadata_file s.read_metadata (fs (sidecar_path loc))
      = Except.ok jm)
    (htrig : boundary_trigger s = true) :
    handle_stream_boundary fs s = Except.ok
      (s.source_ids_and_topics.map eosEnvelope,
       { s with json_metadata := jm, frame_num := 0,
                stream_in_progress := false }) := by
  unfold handle_stream_boundary
  rw [hsip, htrig]
  simp [hloc, hread, send_eos_message, bind, Except.bind]

/-- A successful boundary phase either does nothing or emits exactly the
per-source end-of-stream envelopes, clearing stream_in_progress and
touching no configuration field. -/
theorem handle_stream_boundary_ok_elim
    {fs : FileSystem} {s : SerializerState} {benvs : List Envelope}
    {smid : SerializerState}
    (h : handle_stream_boundary fs s = Except.ok (benvs, smid)) :
    (benvs = [] ∧ smid = s) ∨
    (benvs = s.source_ids_and_topics.map eosEnvelope ∧
     ∃ jm, smid = { s with json_metadata := jm, frame_num := 0,
                           stream_in_progress := false }) := by
  unfold handle_stream_boundary at h
  split at h
  · simp only [bind, Except.bind, send_eos_message] at h
    repeat' split at h
    all_goals try exact Except.noConfusion h
    rename_i xL loc heqL xR jm heqR
    obtain ⟨hb, hm⟩ := Prod.mk.inj (Except.ok.inj h)
    subst hb
    subst hm
    exact Or.inr ⟨rfl, jm, rfl⟩
  · obtain ⟨hb, hm⟩ := Prod.mk.inj (Except.ok.inj h)
    subst hb
    subst hm
    exact Or.inl ⟨rfl, rfl⟩

/-- Exact result of the upstream EOS event handling when at least one
logical source is configured. -/
theorem sink_event_eos_eq (fs : FileSystem) (s : SerializerState)
    (st0 : String × String) (rest : List (String × String))
    (hs : s.source_ids_and_topics = st0 :: rest) :
    do_sink_event fs s SinkEvent.eos = Except.ok
      ((st0 :: rest).map eosEnvelope
        ++ (match s.shutdown_auth with
            | some auth => [shutdownEnvelope st0.2 auth]
            | none => []),
       { s with stream_in_progress := false }) := by
  unfold do_sink_event send_eos_message send_shutdown_message
  cases ha : s.shutdown_auth <;> simp [hs, ha, Bind.bind, Except.bind]

/-! ### Claim theorems -/

/-- C4: on the upstream end-of-stream event, one end-of-stream envelope is
emitted per configured logical source, in configured order, and afterwards
a shutdown envelope carrying the auth token is emitted exactly when
shutdown-auth is set. -/
theorem upstream_eos_emission (fs : FileSystem) (s : SerializerState)
    (st0 : String × String) (rest : List (String × String))
    (hs : s.source_ids_and_topics = st0 :: rest)
    (envs : List Envelope) (s' : SerializerState)
    (hrun : do_sink_event fs s SinkEvent.eos = Except.ok (envs, s')) :
    ∃ tail,
      envs = s.source_ids_and_topics.map eosEnvelope ++ tail ∧
      ((∃ auth, s.shutdown_auth = some auth ∧
          tail = [shutdownEnvelope st0.2 auth])
        ∨ (s.shutdown_auth = none ∧ tail = [])) := by
  rw [sink_event_eos_eq fs s st0 rest hs] at hrun
  have henvs := congrArg Prod.fst (Except.ok.inj hrun)
  simp only at henvs
  subst henvs
  cases ha : s.shutdown_auth with
  | none => exact ⟨[], by rw [hs], Or.inr ⟨rfl, rfl⟩⟩
  | some auth =>
    exact ⟨[shutdownEnvelope st0.2 auth], by rw [hs], Or.inl ⟨auth, rfl, rfl⟩⟩

/-- C4 witness. -/
theorem upstream_eos_emission_witness :
    ∃ tail,
      [eosEnvelope ("cam", "cam/"), shutdownEnvelope "cam/" "tok"] =
        ({ init_state with
            source_ids_and_topics := [("cam", "cam/")],
            shutdown_auth := some "tok" } :
          SerializerState).source_ids_and_topics.map eosEnvelope ++ tail ∧
      ((∃ auth,
          ({ init_state with
              source_ids_and_topics := [("cam", "cam/")],
              shutdown_auth := some "tok" } :
            SerializerState).shutdown_auth = some auth ∧
          tail = [shutdownEnvelope "cam/" auth])
        ∨ (({ init_state with
              source_ids_and_topics := [("cam", "cam/")],
              shutdown_auth := some "tok" } :
            SerializerState).shutdown_auth = none ∧ tail = [])) :=
  upstream_eos_emission (fun _ => none) _ ("cam", "cam/") [] rfl _ _ rfl

/-- C10: when shutdown-auth is set, the upstream EOS handling emits exactly
one shutdown envelope however many logical sources are configured, and it
is addressed to the first configured topic, while an end-of-stream envelope
goes to every configured topic. -/
theorem shutdown_targets_first_topic (fs : FileSystem) (s : SerializerState)
    (st0 : String × String) (rest : List (String × String)) (auth : String)
    (hs : s.source_ids_and_topics = st0 :: rest)
    (ha : s.shutdown_auth = some auth)
    (envs : List Envelope) (s' : SerializerState)
    (hrun : do_sink_event fs s SinkEvent.eos = Except.ok (envs, s')) :
    envs.filter Envelope.isShutdown = [shutdownEnvelope st0.2 auth] ∧
    envs.filter Envelope.isEos = (st0 :: rest).map eosEnvelope := by
  rw [sink_event_eos_eq fs s st0 rest hs, ha] at hrun
  have henvs := congrArg Prod.fst (Except.ok.inj hrun)
  simp only at henvs
  subst henvs
  constructor
  · simp [List.filter_append, List.filter_map, Function.comp_def]
  · simp [List.filter_append, List.filter_map, Function.comp_def]

/-- A list repeats an element exactly when deduplication shortens it (the
len(ids) != len(set(ids)) check of do_start). -/
theorem dedup_length_eq_iff (l : List String) :
    l.dedup.length = l.length ↔ l.Nodup := by
  constructor
  · intro h
    have heq := l.dedup_sublist.eq_of_length h
    exact heq ▸ l.nodup_dedup
  · intro h
    rw [List.dedup_eq_self.2 h]

/-- C5: with multistream enabled, pattern source-%d and three streams, the
generated source ids are exactly source-0, source-1, source-2 in that
order; do_start fails (returns no running state) when the pattern raises
during formatting, when the generated ids contain a duplicate, and when
multistream is disabled with no source-id configured. -/
theorem do_start_validation :
    (∀ s : SerializerState, s.enable_multistream = true →
      s.source_id_pattern = some "source-%d" → s.number_of_streams = 3 →
      (do_start s).map (fun s' => s'.source_ids_and_topics.map Prod.fst) =
        some ["source-0", "source-1", "source-2"]) ∧
    (∀ (s : SerializerState) (p : String), s.enable_multistream = true →
      s.source_id_pattern = some p →
      generate_source_ids p s.number_of_streams = none →
      do_start s = none) ∧
    (∀ (s : SerializerState) (p : String) (ids : List String),
      s.enable_multistream = true → s.source_id_pattern = some p →
      generate_source_ids p s.number_of_streams = some ids →
      ¬ ids.Nodup → do_start s = none) ∧
    (∀ s : SerializerState, s.enable_multistream = false →
      s.source_id = none → do_start s = none) := by
  refine ⟨?_, ?_, ?_, ?_⟩
  · intro s h1 h2 h3
    unfold do_start
    rw [h1, h2, h3]
    rfl
  · intro s p h1 h2 hg
    unfold do_start
    rw [h1, h2]
    simp [hg]
  · intro s p ids h1 h2 hg hdup
    unfold do_start
    rw [h1, h2]
    have hcond : ids.length ≠ ids.dedup.length := by
      intro heq
      exact hdup ((dedup_length_eq_iff ids).1 heq.symm)
    simp [hg, hcond]
  · intro s h1 h2
    unfold do_start
    rw [h1, h2]
    rfl

/-- C5 witness. -/
theorem do_start_validation_witness :
    ((do_start { init_state with
        enable_multistream := true, number_of_streams := 3 }).map
      (fun s' => s'.source_ids_and_topics.map Prod.fst) =
        some ["source-0", "source-1", "source-2"]) ∧
    do_start { init_state with
        enable_multistream := true, source_id_pattern := some "source" }
      = none ∧
    do_start { init_state with
        enable_multistream := true,
        source_id_pattern := some "source-%.0s",
        number_of_streams := 2 } = none ∧
    do_start init_state = none :=
  ⟨do_start_validation.1 _ rfl rfl rfl,
   do_start_validation.2.1 _ "source" rfl rfl rfl,
   do_start_validation.2.2.1 _ "source-%.0s" ["source-", "source-"]
     rfl rfl (by decide) (by decide),
   do_start_validation.2.2.2 _ rfl rfl⟩

/-- Concrete three-record sidecar file of the C1 scenario: three
qualifying records carrying object lists. -/
def c1_records : List Json :=
  [Json.obj [("metadata", Json.obj [("objects", Json.arr [Json.str "o0"])])],
   Json.obj [("metadata", Json.obj [("objects", Json.arr [Json.str "o1"])])],
   Json.obj [("metadata", Json.obj [("objects", Json.arr [Json.str "o2"])])]]

/-- The loaded metadata sequence of the three-record sidecar. -/
def c1_metadata : List Json :=
  [Json.obj [("objects", Json.arr [Json.str "o0"])],
   Json.obj [("objects", Json.arr [Json.str "o1"])],
   Json.obj [("objects", Json.arr [Json.str "o2"])]]

/-- By-reference content used in the concrete scenarios. -/
def c1_content : VideoFrameContent := VideoFrameContent.external "zeromq" none

/-- Element state with the three-record sidecar loaded and i frames already
built since the load. -/
def c1_state (i : Nat) : SerializerState :=
  { init_state with
      source_ids_and_topics := [("cam", "cam/")],
      frame_params := some { codec_name := "h264", width := 640,
                             height := 480, framerate := "30/1" },
      initial_size_transformation :=
        some (VideoFrameTransformation.initial_size 640 480),
      read_metadata := true,
      json_metadata := some c1_metadata,
      frame_num := i }

/-- C1 counterexample: loading the three-record sidecar and building one
frame per record attaches records 0, 1, 2 in order, but the fourth build,
for which no fourth record exists, returns an IndexError instead of leaving
objects unset. -/
theorem sidecar_fourth_buffer_fails :
    read_json_metadata_file true (some c1_records) =
      Except.ok (some c1_metadata) ∧
    ((build_video_frame (c1_state 0) "cam" 0 none none c1_content true).map
        (fun r => (r.1.objects, r.2.frame_num)) =
      Except.ok (some (Json.arr [Json.str "o0"]), 1)) ∧
    ((build_video_frame (c1_state 1) "cam" 0 none none c1_content true).map
        (fun r => (r.1.objects, r.2.frame_num)) =
      Except.ok (some (Json.arr [Json.str "o1"]), 2)) ∧
    ((build_video_frame (c1_state 2) "cam" 0 none none c1_content true).map
        (fun r => (r.1.objects, r.2.frame_num)) =
      Except.ok (some (Json.arr [Json.str "o2"]), 3)) ∧
    (build_video_frame (c1_state 3) "cam" 0 none none c1_content true =
      Except.error "IndexError: list index out of range") :=
  ⟨rfl, rfl, rfl, rfl, rfl⟩

/-- C1 (amended): with the sidecar loaded as a non-empty record list, a
build at a frame index that has a record attaches that record's object
list and advances the index by one, so consecutive builds receive records
0, 1, 2, ... in order; a build at an index past the end of the records
fails with an error instead of leaving objects unset. -/
theorem sidecar_indexing (s : SerializerState) (md : List Json)
    (sid : String) (pts : Nat) (dts duration : Option Nat)
    (content : VideoFrameContent) (keyframe : Bool)
    (hrm : s.read_metadata = true) (hjm : s.json_metadata = some md)
    (hne : md ≠ []) :
    (∀ (h : s.frame_num < md.length) (objs : Json) (fp : FrameParams)
        (t : VideoFrameTransformation),
      (md.get ⟨s.frame_num, h⟩).lookup "objects" = some objs →
      s.frame_params = some fp → s.initial_size_transformation = some t →
      ∃ f sb,
        build_video_frame s sid pts dts duration content keyframe =
          Except.ok (f, sb) ∧
        f.objects = (if objs.truthy then some objs else none) ∧
        sb.frame_num = s.frame_num + 1) ∧
    (md.length ≤ s.frame_num →
      ∃ e, build_video_frame s sid pts dts duration content keyframe =
        Except.error e) := by
  have htr : (s.read_metadata && jsonMetadataTruthy s.json_metadata) = true := by
    rw [hrm, hjm]
    simp [jsonMetadataTruthy, hne]
  constructor
  · intro h objs fp t hobjs hfp ht
    have hget : (s.json_metadata.getD []).get? s.frame_num
        = some (md.get ⟨s.frame_num, h⟩) := by
      rw [hjm]
      simp only [Option.getD_some]
      exact List.get?_eq_get h
    have heq : build_video_frame s sid pts dts duration content keyframe =
        Except.ok
          ({ source_id := sid, framerate := fp.framerate, width := fp.width,
             height := fp.height, codec := fp.codec_name, content := content,
             keyframe := keyframe,
             pts := if pts == CLOCK_TIME_NONE then 0 else pts,
             dts := dts, duration := duration, time_base := DEFAULT_TIME_BASE,
             transformations := [t],
             objects := if objs.truthy then some objs else none,
             attributes :=
               if strTruthy s.location then
                 [{ ns := DEFAULT_NAMESPACE, name := "location",
                    values := [s.location.getD ""] }]
               else [] },
           { s with frame_num := s.frame_num + 1 }) := by
      unfold build_video_frame
      simp only [bind, Except.bind, htr, if_true, hget, hobjs, hfp, ht]
    exact ⟨_, _, heq, rfl, by simp⟩
  · intro hlen
    have hget : (s.json_metadata.getD []).get? s.frame_num = none := by
      rw [hjm]
      simp only [Option.getD_some]
      exact List.get?_eq_none.2 hlen
    refine ⟨"IndexError: list index out of range", ?_⟩
    unfold build_video_frame
    simp only [bind, Except.bind, htr, if_true, hget]

/-- C1 witness. -/
theorem sidecar_indexing_witness :
    (∃ f sb,
        build_video_frame (c1_state 0) "cam" 0 none none c1_content true =
          Except.ok (f, sb) ∧
        f.objects = (if (Json.arr [Json.str "o0"]).truthy
            then some (Json.arr [Json.str "o0"]) else none) ∧
        sb.frame_num = (c1_state 0).frame_num + 1) ∧
    (∃ e, build_video_frame (c1_state 3) "cam" 0 none none c1_content true =
        Except.error e) :=
  ⟨(sidecar_indexing (c1_state 0) c1_metadata "cam" 0 none none c1_content
        true rfl rfl (by simp [c1_metadata])).1
      (by decide) (Json.arr [Json.str "o0"])
      { codec_name := "h264", width := 640, height := 480,
        framerate := "30/1" }
      (VideoFrameTransformation.initial_size 640 480) rfl rfl rfl,
   (sidecar_indexing (c1_state 3) c1_metadata "cam" 0 none none c1_content
        true rfl rfl (by simp [c1_metadata])).2 (by decide)⟩

/-- Every envelope of a fan-out is a frame envelope over one configured
(source_id, topic) pair. -/
theorem mem_frame_fanout {e : Envelope} {s : SerializerState}
    {frame : VideoFrame} {in_buf : GstBuffer}
    (h : e ∈ frame_fanout s frame in_buf) :
    ∃ st ∈ s.source_ids_and_topics,
      e = frame_envelope st.2 { frame with source_id := st.1 }
        s.frame_type.isSome in_buf := by
  simp only [frame_fanout, List.mem_map] at h
  obtain ⟨st, hst, rfl⟩ := h
  exact ⟨st, hst, rfl⟩

/-- C6: on the very first buffer (stream not yet in progress, no previous
location or frame parameters recorded), no end-of-stream envelope is
emitted whatever the configured triggers, and the current location and
frame parameters are recorded as the new baseline. -/
theorem first_buffer_records_baseline (fs : FileSystem) (s : SerializerState)
    (in_buf : GstBuffer)
    (hsip : s.stream_in_progress = false)
    (hlastloc : s.last_location = none)
    (hlastfp : s.last_frame_params = none)
    (pushed : List Envelope) (out : Envelope) (s' : SerializerState)
    (hrun : do_prepare_output_buffer fs s in_buf = Except.ok (pushed, out, s')) :
    (∀ e ∈ pushed, e.isEos = false) ∧ out.isEos = false ∧
    s'.last_location = s.location ∧ s'.last_frame_params = s.frame_params := by
  obtain ⟨benvs, smid, first, frame, sb, hB, hH, hF, hpu, hL, hs'⟩ :=
    prepare_ok_elim hrun
  rw [handle_stream_boundary_not_in_progress fs s hsip] at hB
  obtain ⟨hb, hm⟩ := Prod.mk.inj (Except.ok.inj hB)
  subst hb
  subst hm
  have hfan := List.dropLast_append_getLast? out hL
  have hmem_fan : ∀ e ∈ frame_fanout sb frame in_buf, e.isEos = false := by
    intro e he
    obtain ⟨st, hst, rfl⟩ := mem_frame_fanout he
    simp
  obtain hsb | hsb :=
    (build_video_frame_ok_elim hF).2.2.2
  · constructor
    · intro e he
      rw [hpu] at he
      simp only [List.nil_append] at he
      exact hmem_fan e (List.mem_of_mem_dropLast he)
    · refine ⟨?_, ?_, ?_⟩
      · exact hmem_fan out (hfan ▸ List.mem_append_right _ (by simp))
      · rw [hs', hsb]
      · rw [hs', hsb]
  · constructor
    · intro e he
      rw [hpu] at he
      simp only [List.nil_append] at he
      exact hmem_fan e (List.mem_of_mem_dropLast he)
    · refine ⟨?_, ?_, ?_⟩
      · exact hmem_fan out (hfan ▸ List.mem_append_right _ (by simp))
      · rw [hs', hsb]
      · rw [hs', hsb]

/-- Concrete frame parameters fixture. -/
def fp0 : FrameParams :=
  { codec_name := "h264", width := 640, height := 480, framerate := "30/1" }

/-- Concrete negotiated single-source state fixture. -/
def ready_state : SerializerState :=
  { init_state with
      source_ids_and_topics := [("cam", "cam/")],
      frame_params := some fp0,
      initial_size_transformation :=
        some (VideoFrameTransformation.initial_size 640 480) }

/-- Concrete mid-stream state fixture. -/
def inprog_state : SerializerState :=
  { ready_state with
      stream_in_progress := true,
      location := some "/data/v.mp4",
      last_location := some "/data/v.mp4",
      last_frame_params := some fp0 }

/-- Concrete input buffer fixture. -/
def buf0 : GstBuffer :=
  { pts := 100, dts := 90, duration := 10, data := [], delta_unit := false }

/-- The frame do_prepare_output_buffer builds from buf0 in ready_state. -/
def frame0 : VideoFrame :=
  { source_id := "cam", framerate := "30/1", width := 640, height := 480,
    codec := "h264", content := VideoFrameContent.external "zeromq" none,
    keyframe := true, pts := 100, dts := some 90, duration := some 10,
    time_base := DEFAULT_TIME_BASE,
    transformations := [VideoFrameTransformation.initial_size 640 480],
    objects := none, attributes := [] }

/-- An empty filesystem (no sidecar file exists anywhere). -/
def fsNone : FileSystem := fun _ => none

/-- State after the first buffer of the C6 scenario. -/
def c6_after : SerializerState :=
  { ready_state with last_frame_params := some fp0,
                     stream_in_progress := true }

/-- C6 witness. -/
theorem first_buffer_records_baseline_witness :
    (∀ e ∈ ([] : List Envelope), e.isEos = false) ∧
    (frame_envelope "cam/" frame0 true buf0).isEos = false ∧
    c6_after.last_location = ready_state.location ∧
    c6_after.last_frame_params = ready_state.frame_params :=
  first_buffer_records_baseline fsNone ready_state buf0 rfl rfl rfl
    [] (frame_envelope "cam/" frame0 true buf0) c6_after (by rfl)

/-- C2: while a stream is in progress (and the current location is set so
the sidecar path is derivable), the boundary phase before the buffer is
processed emits nothing when the configured-trigger disjunction is false,
and when it is true it reloads the sidecar, resets the frame index to 0
and emits one end-of-stream envelope per active logical source, all of
which precede every frame envelope of the buffer in the pushed output. -/
theorem eos_boundary_contract (fs : FileSystem) (s : SerializerState)
    (in_buf : GstBuffer) (loc : String) (jm : Option (List Json))
    (hsip : s.stream_in_progress = true)
    (hloc : s.location = some loc)
    (hread : read_json_metadata_file s.read_metadata (fs (sidecar_path loc))
      = Except.ok jm) :
    (((s.eos_on_file_end && decide (s.location ≠ s.last_location))
        || (s.eos_on_frame_params_change
              && decide (s.frame_params ≠ s.last_frame_params))
        || (s.eos_on_loop_end && s.new_loop)) = false →
      handle_stream_boundary fs s = Except.ok ([], s)) ∧
    (((s.eos_on_file_end && decide (s.location ≠ s.last_location))
        || (s.eos_on_frame_params_change
              && decide (s.frame_params ≠ s.last_frame_params))
        || (s.eos_on_loop_end && s.new_loop)) = true →
      handle_stream_boundary fs s = Except.ok
        (s.source_ids_and_topics.map eosEnvelope,
         { s with json_metadata := jm, frame_num := 0,
                  stream_in_progress := false })) ∧
    (∀ (pushed : List Envelope) (out : Envelope) (s' : SerializerState)
        (benvs : List Envelope) (smid : SerializerState),
      do_prepare_output_buffer fs s in_buf = Except.ok (pushed, out, s') →
      handle_stream_boundary fs s = Except.ok (benvs, smid) →
      ∃ fenvs, pushed = benvs ++ fenvs ∧ ∀ e ∈ fenvs, e.isFrame = true) := by
  refine ⟨?_, ?_, ?_⟩
  · intro htrig
    exact handle_stream_boundary_no_trigger fs s htrig
  · intro htrig
    exact handle_stream_boundary_trigger_eq fs s loc jm hsip hloc hread htrig
  · intro pushed out s' benvs smid hrun hb
    obtain ⟨benvs', smid', first, frame, sb, hB, hH, hF, hpu, hL, hs'⟩ :=
      prepare_ok_elim hrun
    rw [hb] at hB
    obtain ⟨hbe, hsm⟩ := Prod.mk.inj (Except.ok.inj hB)
    subst hbe
    refine ⟨(frame_fanout sb frame in_buf).dropLast, hpu, ?_⟩
    intro e he
    obtain ⟨st, hst, rfl⟩ := mem_frame_fanout (List.mem_of_mem_dropLast he)
    simp

/-- State after a fired boundary in the C2 scenario. -/
def c2_after : SerializerState :=
  { inprog_state with json_metadata := none, frame_num := 0,
                      stream_in_progress := false }

/-- C2 witness. -/
theorem eos_boundary_contract_witness :
    (((inprog_state.eos_on_file_end
          && decide (inprog_state.location ≠ inprog_state.last_location))
        || (inprog_state.eos_on_frame_params_change
              && decide (inprog_state.frame_params
                    ≠ inprog_state.last_frame_params))
        || (inprog_state.eos_on_loop_end && inprog_state.new_loop)) = false →
      handle_stream_boundary fsNone inprog_state =
        Except.ok ([], inprog_state)) ∧
    (((inprog_state.eos_on_file_end
          && decide (inprog_state.location ≠ inprog_state.last_location))
        || (inprog_state.eos_on_frame_params_change
              && decide (inprog_state.frame_params
                    ≠ inprog_state.last_frame_params))
        || (inprog_state.eos_on_loop_end && inprog_state.new_loop)) = true →
      handle_stream_boundary fsNone inprog_state = Except.ok
        (inprog_state.source_ids_and_topics.map eosEnvelope, c2_after)) ∧
    (∀ (pushed : List Envelope) (out : Envelope) (s' : SerializerState)
        (benvs : List Envelope) (smid : SerializerState),
      do_prepare_output_buffer fsNone inprog_state buf0 =
        Except.ok (pushed, out, s') →
      handle_stream_boundary fsNone inprog_state = Except.ok (benvs, smid) →
      ∃ fenvs, pushed = benvs ++ fenvs ∧ ∀ e ∈ fenvs, e.isFrame = true) :=
  eos_boundary_contract fsNone inprog_state buf0 "/data/v.mp4" none
    rfl rfl rfl

/-- A successful prepare call preserves the configured sources and frame
type through the boundary and build phases. -/
theorem prepare_phases_preserve_config
    {fs : FileSystem} {s : SerializerState} {benvs : List Envelope}
    {smid : SerializerState}
    (hB : handle_stream_boundary fs s = Except.ok (benvs, smid)) :
    smid.source_ids_and_topics = s.source_ids_and_topics ∧
    smid.frame_type = s.frame_type ∧
    (benvs = [] ∨ benvs = s.source_ids_and_topics.map eosEnvelope) := by
  obtain ⟨hb, hm⟩ | ⟨hb, jm, hm⟩ := handle_stream_boundary_ok_elim hB <;>
    subst hb <;> subst hm <;> simp

/-- C3: for every processed buffer, the fan-out emits exactly one frame
envelope per configured logical source, all carrying the same frame except
for source_id, in configured order; they follow any boundary envelopes,
all but the last are pushed, and the last is returned to the caller as the
primary output. -/
theorem multistream_fanout_contract (fs : FileSystem) (s : SerializerState)
    (in_buf : GstBuffer)
    (pushed : List Envelope) (out : Envelope) (s' : SerializerState)
    (hrun : do_prepare_output_buffer fs s in_buf = Except.ok (pushed, out, s')) :
    s.source_ids_and_topics ≠ [] ∧
    ∃ (pre : List Envelope) (f : VideoFrame),
      (∀ e ∈ pre, e.isFrame = false) ∧
      (s.source_ids_and_topics.map (fun st =>
          frame_envelope st.2 { f with source_id := st.1 }
            s.frame_type.isSome in_buf)).length
        = s.source_ids_and_topics.length ∧
      pushed = pre ++ (s.source_ids_and_topics.map (fun st =>
          frame_envelope st.2 { f with source_id := st.1 }
            s.frame_type.isSome in_buf)).dropLast ∧
      (s.source_ids_and_topics.map (fun st =>
          frame_envelope st.2 { f with source_id := st.1 }
            s.frame_type.isSome in_buf)).getLast? = some out := by
  obtain ⟨benvs, smid, first, frame, sb, hB, hH, hF, hpu, hL, hs'⟩ :=
    prepare_ok_elim hrun
  obtain ⟨hsrc, hft, hbe⟩ := prepare_phases_preserve_config hB
  have hsb : sb.source_ids_and_topics = s.source_ids_and_topics ∧
      sb.frame_type = s.frame_type := by
    obtain h | h := (build_video_frame_ok_elim hF).2.2.2 <;>
      subst h <;> exact ⟨hsrc, hft⟩
  have hfan : frame_fanout sb frame in_buf =
      s.source_ids_and_topics.map (fun st =>
        frame_envelope st.2 { frame with source_id := st.1 }
          s.frame_type.isSome in_buf) := by
    rw [frame_fanout, hsb.1, hsb.2]
  constructor
  · rw [← hsrc]
    intro hnil
    rw [hnil] at hH
    exact Option.noConfusion hH
  · refine ⟨benvs, frame, ?_, by simp, ?_, ?_⟩
    · intro e he
      obtain hb | hb := hbe <;> subst hb
      · simp at he
      · obtain ⟨st, hst, rfl⟩ := List.mem_map.1 he
        simp
    · rw [hpu, hfan]
    · rw [← hfan]
      exact hL

/-- C3 witness. -/
theorem multistream_fanout_contract_witness :
    ready_state.source_ids_and_topics ≠ [] ∧
    ∃ (pre : List Envelope) (f : VideoFrame),
      (∀ e ∈ pre, e.isFrame = false) ∧
      (ready_state.source_ids_and_topics.map (fun st =>
          frame_envelope st.2 { f with source_id := st.1 }
            ready_state.frame_type.isSome buf0)).length
        = ready_state.source_ids_and_topics.length ∧
      [] = pre ++ (ready_state.source_ids_and_topics.map (fun st =>
          frame_envelope st.2 { f with source_id := st.1 }
            ready_state.frame_type.isSome buf0)).dropLast ∧
      (ready_state.source_ids_and_topics.map (fun st =>
          frame_envelope st.2 { f with source_id := st.1 }
            ready_state.frame_type.isSome buf0)).getLast?
        = some (frame_envelope "cam/" frame0 true buf0) :=
  multistream_fanout_contract fsNone ready_state buf0
    [] (frame_envelope "cam/" frame0 true buf0) c6_after (by rfl)

/-- C7: the built frame normalizes a not-a-time pts to 0 and passes a set
pts through unchanged; dts and duration are carried as unset exactly when
the upstream marks them not-a-time and pass through unchanged otherwise. -/
theorem timing_normalization (fs : FileSystem) (s : SerializerState)
    (in_buf : GstBuffer)
    (pushed : List Envelope) (out : Envelope) (s' : SerializerState)
    (f : VideoFrame)
    (hrun : do_prepare_output_buffer fs s in_buf = Except.ok (pushed, out, s'))
    (hf : out.payload = WireMessage.video_frame f) :
    (in_buf.pts = CLOCK_TIME_NONE → f.pts = 0) ∧
    (in_buf.pts ≠ CLOCK_TIME_NONE → f.pts = in_buf.pts) ∧
    (in_buf.dts = CLOCK_TIME_NONE → f.dts = none) ∧
    (in_buf.dts ≠ CLOCK_TIME_NONE → f.dts = some in_buf.dts) ∧
    (in_buf.duration = CLOCK_TIME_NONE → f.duration = none) ∧
    (in_buf.duration ≠ CLOCK_TIME_NONE → f.duration = some in_buf.duration) := by
  obtain ⟨benvs, smid, first, frame, sb, hB, hH, hF, hpu, hL, hs'⟩ :=
    prepare_ok_elim hrun
  have hout : out ∈ frame_fanout sb frame in_buf := by
    have := List.dropLast_append_getLast? out hL
    rw [← this]
    exact List.mem_append_right _ (by simp)
  obtain ⟨st, hst, rfl⟩ := mem_frame_fanout hout
  obtain ⟨hpts, hdts, hdur, _⟩ := build_video_frame_ok_elim hF
  have hfeq : f = { frame with source_id := st.1 } := by
    simpa [frame_envelope] using hf.symm
  subst hfeq
  refine ⟨?_, ?_, ?_, ?_, ?_, ?_⟩
  · intro h
    simp only [hpts]
    simp [h]
  · intro h
    simp only [hpts]
    simp [h]
  · intro h
    simp only [hdts]
    simp [h]
  · intro h
    simp only [hdts]
    simp [h]
  · intro h
    simp only [hdur]
    simp [h]
  · intro h
    simp only [hdur]
    simp [h]

/-- Input buffer whose pts and dts carry the not-a-time sentinel. -/
def buf_nat : GstBuffer :=
  { pts := CLOCK_TIME_NONE, dts := CLOCK_TIME_NONE, duration := 10,
    data := [], delta_unit := false }

/-- The frame built from buf_nat in ready_state. -/
def frame_nat : VideoFrame :=
  { frame0 with pts := 0, dts := none, duration := some 10 }

/-- C7 witness. -/
theorem timing_normalization_witness :
    (buf_nat.pts = CLOCK_TIME_NONE → frame_nat.pts = 0) ∧
    (buf_nat.pts ≠ CLOCK_TIME_NONE → frame_nat.pts = buf_nat.pts) ∧
    (buf_nat.dts = CLOCK_TIME_NONE → frame_nat.dts = none) ∧
    (buf_nat.dts ≠ CLOCK_TIME_NONE → frame_nat.dts = some buf_nat.dts) ∧
    (buf_nat.duration = CLOCK_TIME_NONE → frame_nat.duration = none) ∧
    (buf_nat.duration ≠ CLOCK_TIME_NONE →
      frame_nat.duration = some buf_nat.duration) :=
  timing_normalization fsNone ready_state buf_nat []
    (frame_envelope "cam/" frame_nat true buf_nat) c6_after frame_nat
    (by rfl) rfl

/-- C8 counterexample: an existing one-record sidecar loads to the value
of the record's metadata field, which differs from the parsed record
itself, so the resulting sequence does not contain the qualifying records
themselves. -/
theorem sidecar_load_projects_counterexample :
    read_json_metadata_file true
        (some [Json.obj
          [("metadata", Json.obj [("objects", Json.arr [Json.num 1])])]]) =
      Except.ok (some [Json.obj [("objects", Json.arr [Json.num 1])]]) ∧
    Json.obj [("objects", Json.arr [Json.num 1])] ≠
      Json.obj [("metadata", Json.obj [("objects", Json.arr [Json.num 1])])] := by
  refine ⟨rfl, ?_⟩
  intro h
  have h2 := congrArg (fun j => j.lookup "metadata") h
  simp [Json.lookup, List.lookup] at h2

/-- Option-monad mapM of the metadata projection over records that all
carry a metadata field. -/
theorem mapM_metadata_of_isSome (l : List Json)
    (h : ∀ r ∈ l, (r.lookup "metadata").isSome) :
    l.mapM (fun x => x.lookup "metadata") =
      some (l.map (fun r => (r.lookup "metadata").getD Json.null)) := by
  induction l with
  | nil => rfl
  | cons r rs ih =>
    obtain ⟨v, hv⟩ := Option.isSome_iff_exists.1 (h r (by simp))
    rw [List.mapM_cons, hv, ih (fun x hx => h x (by simp [hx]))]
    simp [hv]

/-- C8 (amended): loading returns absent (not an error) when the sidecar
file does not exist; a record qualifies exactly when it has no schema
field or its schema field equals the string VideoFrame; and an existing
file whose qualifying records all carry a metadata field loads to the
metadata field of exactly the qualifying records, in file order, with
non-qualifying records filtered out. -/
theorem sidecar_load_contract :
    (∀ rm : Bool, read_json_metadata_file rm none = Except.ok none) ∧
    (∀ r : Json, is_videoframe_metadata r = true ↔
      (r.lookup "schema" = none ∨
       r.lookup "schema" = some (Json.str "VideoFrame"))) ∧
    (∀ records : List Json,
      (∀ r ∈ records, is_videoframe_metadata r = true →
        (r.lookup "metadata").isSome) →
      read_json_metadata_file true (some records) =
        Except.ok (some ((records.filter is_videoframe_metadata).map
          (fun r => (r.lookup "metadata").getD Json.null)))) := by
  refine ⟨?_, ?_, ?_⟩
  · intro rm
    cases rm <;> rfl
  · intro r
    unfold is_videoframe_metadata
    cases hs : r.lookup "schema" with
    | none => simp
    | some v =>
      cases v <;> simp [Json.isStrEq]
  · intro records hmeta
    have hall : ∀ r ∈ records.filter is_videoframe_metadata,
        (r.lookup "metadata").isSome := by
      intro r hr
      obtain ⟨hmem, hq⟩ := List.mem_filter.1 hr
      exact hmeta r hmem hq
    have hred : read_json_metadata_file true (some records) =
        match (records.filter is_videoframe_metadata).mapM
            (fun x => x.lookup "metadata") with
        | some projected => Except.ok (some projected)
        | none => Except.error "KeyError: metadata" := rfl
    rw [hred, mapM_metadata_of_isSome _ hall]

/-- C8 witness. -/
theorem sidecar_load_contract_witness :
    read_json_metadata_file false none = Except.ok none ∧
    (is_videoframe_metadata (Json.obj []) = true ↔
      ((Json.obj []).lookup "schema" = none ∨
       (Json.obj []).lookup "schema" = some (Json.str "VideoFrame"))) ∧
    read_json_metadata_file true (some c1_records) =
      Except.ok (some ((c1_records.filter is_videoframe_metadata).map
        (fun r => (r.lookup "metadata").getD Json.null))) :=
  ⟨sidecar_load_contract.1 false,
   sidecar_load_contract.2.1 (Json.obj []),
   sidecar_load_contract.2.2 c1_records (by
     intro r hr _
     simp only [c1_records, List.mem_cons, List.not_mem_nil, or_false] at hr
     rcases hr with h | h | h <;> subst h <;> rfl)⟩

/-- Folding the frame counter over frame envelopes adds their number. -/
theorem foldl_frameCountStep_frames (l : List Envelope)
    (hall : ∀ e ∈ l, e.isFrame = true) (acc : Nat) :
    l.foldl frameCountStep acc = acc + l.length := by
  induction l generalizing acc with
  | nil => simp
  | cons e t ih =>
    have he := hall e (by simp)
    have hstep : frameCountStep acc e = acc + 1 := by
      unfold Envelope.isFrame at he
      unfold frameCountStep
      cases hp : e.payload <;> rw [hp] at he <;> simp_all
    rw [List.foldl_cons, hstep,
        ih (fun x hx => hall x (by simp [hx])) (acc + 1), List.length_cons]
    omega

/-- Folding the frame counter over a non-empty run of end-of-stream
envelopes yields zero from any starting count. -/
theorem foldl_frameCountStep_eos (sts : List (String × String))
    (h : sts ≠ []) (acc : Nat) :
    (sts.map eosEnvelope).foldl frameCountStep acc = 0 := by
  induction sts generalizing acc with
  | nil => exact absurd rfl h
  | cons st t ih =>
    rw [List.map_cons, List.foldl_cons]
    have hstep : frameCountStep acc (eosEnvelope st) = 0 := rfl
    rw [hstep]
    cases t with
    | nil => rfl
    | cons b t2 => exact ih (by simp) 0

/-- C9: stream_in_progress holds exactly when at least one frame envelope
has been emitted since the last end-of-stream envelope: the invariant
holds for the freshly constructed element with an empty emission history,
and it is preserved by every successful processing step (buffer or sink
event) of a started element, whose source configuration is non-empty. -/
theorem stream_invariant_preserved :
    stream_invariant init_state [] ∧
    (∀ (fs : FileSystem) (s : SerializerState) (history : List Envelope)
        (op : SOp) (envs : List Envelope) (s' : SerializerState),
      stream_invariant s history →
      s.source_ids_and_topics ≠ [] →
      step fs s op = Except.ok (envs, s') →
      stream_invariant s' (history ++ envs)) := by
  constructor
  · simp [stream_invariant, framesSince, init_state]
  · intro fs s history op envs s' hinv hne hstep
    cases op with
    | buffer b =>
      simp only [step] at hstep
      cases hp : do_prepare_output_buffer fs s b with
      | error e =>
        rw [hp] at hstep
        exact Except.noConfusion hstep
      | ok r =>
        rw [hp] at hstep
        simp only [Except.map] at hstep
        obtain ⟨he, hs2⟩ := Prod.mk.inj (Except.ok.inj hstep)
        subst he
        subst hs2
        obtain ⟨benvs, smid, first, frame, sb, hB, hH, hF, hpu, hL, hs'⟩ :=
          prepare_ok_elim hp
        have hfannil : frame_fanout sb frame b ≠ [] := by
          intro hnil
          rw [hnil] at hL
          exact Option.noConfusion hL
        have hfaneq := List.dropLast_append_getLast? r.2.1 hL
        have hframes : ∀ e ∈ frame_fanout sb frame b, e.isFrame = true := by
          intro e hee
          obtain ⟨st, hst, rfl⟩ := mem_frame_fanout hee
          simp
        rw [hs']
        refine iff_of_true rfl ?_
        rw [hpu]
        have hsplit : history ++
            ((benvs ++ (frame_fanout sb frame b).dropLast) ++ [r.2.1]) =
            (history ++ benvs) ++ frame_fanout sb frame b := by
          conv_rhs => rw [← hfaneq]
          simp [List.append_assoc]
        rw [hsplit]
        unfold framesSince
        rw [List.foldl_append, foldl_frameCountStep_frames _ hframes]
        have hlen : 0 < (frame_fanout sb frame b).length :=
          List.length_pos.2 hfannil
        omega
    | event ev =>
      cases ev with
      | eos =>
        obtain ⟨st0, rest, hsrc⟩ :
            ∃ st0 rest, s.source_ids_and_topics = st0 :: rest := by
          cases hc : s.source_ids_and_topics with
          | nil => exact absurd hc hne
          | cons a t => exact ⟨a, t, rfl⟩
        simp only [step] at hstep
        rw [sink_event_eos_eq fs s st0 rest hsrc] at hstep
        obtain ⟨he, hs2⟩ := Prod.mk.inj (Except.ok.inj hstep)
        subst he
        subst hs2
        refine iff_of_false (by simp) ?_
        unfold framesSince
        have hre : history ++ ((st0 :: rest).map eosEnvelope ++
            (match s.shutdown_auth with
             | some auth => [shutdownEnvelope st0.2 auth]
             | none => [])) =
            (history ++ (st0 :: rest).map eosEnvelope) ++
            (match s.shutdown_auth with
             | some auth => [shutdownEnvelope st0.2 auth]
             | none => []) := by
          simp [List.append_assoc]
        rw [hre, List.foldl_append, List.foldl_append,
            foldl_frameCountStep_eos (st0 :: rest) (by simp)]
        cases ha : s.shutdown_auth <;> simp [frameCountStep, shutdownEnvelope]
      | tag loc =>
        cases loc with
        | none =>
          simp only [step, do_sink_event] at hstep
          obtain ⟨he, hs2⟩ := Prod.mk.inj (Except.ok.inj hstep)
          subst he
          subst hs2
          simpa using hinv
        | some l =>
          simp only [step, do_sink_event, bind, Except.bind] at hstep
          cases hr : read_json_metadata_file
              ({ s with location := some l,
                        new_loop := true } : SerializerState).read_metadata
              (fs (sidecar_path l)) with
          | error e =>
            rw [hr] at hstep
            exact Except.noConfusion hstep
          | ok jm =>
            rw [hr] at hstep
            obtain ⟨he, hs2⟩ := Prod.mk.inj (Except.ok.inj hstep)
            subst he
            subst hs2
            simpa using hinv

/-- C9 witness. -/
theorem stream_invariant_preserved_witness :
    stream_invariant ready_state ([] ++ []) :=
  stream_invariant_preserved.2 fsNone ready_state []
    (SOp.event (SinkEvent.tag none)) [] ready_state
    (by simp [stream_invariant, framesSince, ready_state, init_state])
    (by simp [ready_state, init_state]) rfl

/-- C10 witness. -/
theorem shutdown_targets_first_topic_witness :
    ([eosEnvelope ("s0", "s0/"), eosEnvelope ("s1", "s1/"),
      shutdownEnvelope "s0/" "tok"].filter Envelope.isShutdown =
        [shutdownEnvelope "s0/" "tok"]) ∧
    ([eosEnvelope ("s0", "s0/"), eosEnvelope ("s1", "s1/"),
      shutdownEnvelope "s0/" "tok"].filter Envelope.isEos =
        [("s0", "s0/"), ("s1", "s1/")].map eosEnvelope) :=
  shutdown_targets_first_topic (fun _ => none)
    { init_state with
        source_ids_and_topics := [("s0", "s0/"), ("s1", "s1/")],
        shutdown_auth := some "tok" }
    ("s0", "s0/") [("s1", "s1/")] "tok" rfl rfl _ _ rfl

end Savant
